import Mathlib

/-!
Shallow embedding of the `weak-self` crate (`src/lib.rs`).

The crate provides one type, `WeakSelf<T>`, a write-once slot
`cell : UnsafeCell<Option<Weak<T>>>` embedded in an `Arc`-managed object so
that the object can hold a non-owning (`Weak`) reference to itself.

Embedding choices:
* Allocations are identified by natural numbers.  An `Arc<T>` handle and a
  `Weak<T>` handle are both represented by the id of the allocation they
  point to; two handles point to the same object iff their ids are equal.
* The reference-count runtime of `std::sync::Arc` is a state `RcState`
  holding, per allocation id, the strong count and the weak count, plus a
  fresh-id counter.  `Arc::new`, `Arc::clone`, `Arc::drop`,
  `Arc::downgrade` and `Weak::upgrade` are state transformers, faithful to
  the `std` counting semantics the crate relies on.
* Panics (`panic!` in `init`, `expect` in `get`) become `Except.error` with
  the exact message from the source.
* `Weak::clone` in `get` copies the pointer; at the identity level of this
  embedding it is the identity on the allocation id (the clone's own count
  bookkeeping belongs to the caller-held temporary, which the crate never
  inspects).
-/

/-- The reference-count state of the `std::sync::Arc` runtime: per
allocation id, the number of live owning (`Arc`) handles and of live
non-owning (`Weak`) handles, plus the next fresh allocation id. -/
structure RcState where
  next : Nat
  strong : Nat → Nat
  weak : Nat → Nat

/-- Pointwise update of a count table. -/
def updCount (f : Nat → Nat) (i v : Nat) : Nat → Nat :=
  fun j => if j = i then v else f j

/-- The state with no allocations. -/
def RcState.empty : RcState :=
  { next := 0, strong := fun _ => 0, weak := fun _ => 0 }

/-- `Arc::new`: allocate a fresh object behind an owning handle; the new
allocation has strong count 1 and weak count 0. -/
def arcNew (s : RcState) : RcState × Nat :=
  ({ next := s.next + 1
     strong := updCount s.strong s.next 1
     weak := updCount s.weak s.next 0 }, s.next)

/-- `Arc::clone`: one more owning handle to the same allocation. -/
def arcClone (s : RcState) (a : Nat) : RcState :=
  { s with strong := updCount s.strong a (s.strong a + 1) }

/-- `Arc::drop`: one owning handle goes away. -/
def arcDrop (s : RcState) (a : Nat) : RcState :=
  { s with strong := updCount s.strong a (s.strong a - 1) }

/-- `Arc::downgrade`: create a non-owning handle to the same allocation;
the weak count grows by one, the returned `Weak` points to the same id. -/
def arcDowngrade (s : RcState) (a : Nat) : RcState × Nat :=
  ({ s with weak := updCount s.weak a (s.weak a + 1) }, a)

/-- `Weak::upgrade`: if the allocation still has at least one owning
handle, mint a new owning handle to it (strong count + 1) and return it;
otherwise return `none`. -/
def weakUpgrade (s : RcState) (w : Nat) : RcState × Option Nat :=
  if s.strong w ≠ 0 then
    ({ s with strong := updCount s.strong w (s.strong w + 1) }, some w)
  else
    (s, none)

/-- `Weak::clone` as used by `WeakSelf::get`: a copy of the pointer; at
the identity level it is the identity on the allocation id. -/
def weakCloneId (w : Nat) : Nat := w

/-- `struct WeakSelf<T> { cell: UnsafeCell<Option<Weak<T>>> }` — the slot
is its cell's content: `none` when uninitialized, `some w` when it stores
the non-owning reference `w`. -/
structure WeakSelf where
  cell : Option Nat
deriving DecidableEq

/-- `WeakSelf::new`: an empty slot. -/
def WeakSelf.new : WeakSelf :=
  { cell := none }

/-- `WeakSelf::init(&self, content: &Arc<T>)`: panic unless the handle has
strong count exactly 1 and weak count exactly 0; otherwise store
`Arc::downgrade(content)` in the cell.  Returns the updated count state
and the updated slot. -/
def WeakSelf.init (s : RcState) (_slot : WeakSelf) (content : Nat) :
    Except String (RcState × WeakSelf) :=
  if s.strong content ≠ 1 ∨ s.weak content ≠ 0 then
    Except.error "Exclusive access to Arc<T> is required while initializing WeakSelf<T>"
  else
    let p := arcDowngrade s content
    Except.ok (p.1, { cell := some p.2 })

/-- `WeakSelf::try_get`: the stored non-owning reference, if present. -/
def WeakSelf.try_get (slot : WeakSelf) : Option Nat :=
  match slot.cell with
  | some weak => some weak
  | none => none

/-- `WeakSelf::get`: `self.try_get().expect("...").clone()`. -/
def WeakSelf.get (slot : WeakSelf) : Except String Nat :=
  match WeakSelf.try_get slot with
  | some w => Except.ok (weakCloneId w)
  | none => Except.error "expected WeakSelf to be initialized"

/-- `impl Debug for WeakSelf<T>`: `"Empty WeakSelf<T>"` when the slot is
uninitialized, otherwise the debug rendering of the stored `Weak<T>`
(`weakDbg` stands for `fmt::Debug::fmt` of `Weak<T>`). -/
def WeakSelf.debugFmt (weakDbg : Nat → String) (slot : WeakSelf) : String :=
  match WeakSelf.try_get slot with
  | none => "Empty WeakSelf<T>"
  | some weak => weakDbg weak

/-- `impl Default for WeakSelf<T>`: `WeakSelf::new()`. -/
def WeakSelf.defaultSlot : WeakSelf :=
  WeakSelf.new

/-- The bound of `unsafe impl<T: ?Sized + Sync + Send> Sync for WeakSelf<T>`:
`WeakSelf<T>` is `Sync` exactly when `T` is both `Sync` and `Send`. -/
def weakSelfIsSync (tSync tSend : Bool) : Bool :=
  tSync && tSend

/-- The bound of `unsafe impl<T: ?Sized + Sync + Send> Send for WeakSelf<T>`:
`WeakSelf<T>` is `Send` exactly when `T` is both `Sync` and `Send`. -/
def weakSelfIsSend (tSync tSend : Bool) : Bool :=
  tSync && tSend

/-- What automatic derivation would give for `Sync` of a struct containing
an `UnsafeCell` field: never `Sync`, whatever the target's markers are. -/
def autoDerivedSync (_tSync _tSend : Bool) : Bool :=
  false

/-- A whole-system state: the reference-count runtime plus one slot. -/
structure SysState where
  rc : RcState
  slot : WeakSelf

/-- The operations a client can perform on the slot and on the handles of
the surrounding `Arc` runtime. -/
inductive SlotOp where
  | newArc : SlotOp
  | cloneArc : Nat → SlotOp
  | dropArc : Nat → SlotOp
  | initSlot : Nat → SlotOp
  | tryGetSlot : SlotOp
  | getSlot : SlotOp
  | upgradeWeak : Nat → SlotOp
deriving DecidableEq

/-- One step of the system.  A panicking `init` aborts the operation and
leaves the state unchanged (in Rust the panic unwinds; modelling it as a
no-op and letting the trace continue only enlarges the set of reachable
states, so invariants proved over this relation also hold for real
traces).  `try_get` and `get` read the cell and build their return value
without writing to it. -/
def stepOp (s : SysState) (op : SlotOp) : SysState :=
  match op with
  | SlotOp.newArc => { s with rc := (arcNew s.rc).1 }
  | SlotOp.cloneArc a => { s with rc := arcClone s.rc a }
  | SlotOp.dropArc a => { s with rc := arcDrop s.rc a }
  | SlotOp.initSlot a =>
      match WeakSelf.init s.rc s.slot a with
      | Except.ok p => { rc := p.1, slot := p.2 }
      | Except.error _ => s
  | SlotOp.tryGetSlot => s
  | SlotOp.getSlot => s
  | SlotOp.upgradeWeak w => { s with rc := (weakUpgrade s.rc w).1 }

/-- Run a sequence of operations from a state. -/
def runOps (s : SysState) (ops : List SlotOp) : SysState :=
  ops.foldl stepOp s

/-- If the slot's cell already holds a reference, it still does after any
single step: `init` either panics (state unchanged) or stores a fresh
`some`, and no other operation writes to the cell. -/
theorem stepOp_preserves_some (s : SysState) (op : SlotOp)
    (h : s.slot.cell.isSome = true) :
    ((stepOp s op).slot.cell).isSome = true := by
  cases op with
  | newArc => exact h
  | cloneArc a => exact h
  | dropArc a => exact h
  | tryGetSlot => exact h
  | getSlot => exact h
  | upgradeWeak w => exact h
  | initSlot a =>
      by_cases hc : s.rc.strong a ≠ 1 ∨ s.rc.weak a ≠ 0
      · simpa [stepOp, WeakSelf.init, hc] using h
      · simp [stepOp, WeakSelf.init, hc]

/-- C1: `init(&h)` panics, with the message from the source, if and only
if the strong count of `h` differs from 1 or the weak count of `h`
differs from 0; in particular it panics when the strong count is 2, and
when the strong count is 1 but the weak count is at least 1. -/
theorem weakSelf_init_aborts_iff (s : RcState) (slot : WeakSelf) (a : Nat) :
    (WeakSelf.init s slot a = Except.error
        "Exclusive access to Arc<T> is required while initializing WeakSelf<T>" ↔
      (s.strong a ≠ 1 ∨ s.weak a ≠ 0)) ∧
    (s.strong a = 2 → WeakSelf.init s slot a = Except.error
        "Exclusive access to Arc<T> is required while initializing WeakSelf<T>") ∧
    (s.strong a = 1 → 1 ≤ s.weak a → WeakSelf.init s slot a = Except.error
        "Exclusive access to Arc<T> is required while initializing WeakSelf<T>") := by
  have hiff : WeakSelf.init s slot a = Except.error
      "Exclusive access to Arc<T> is required while initializing WeakSelf<T>" ↔
      (s.strong a ≠ 1 ∨ s.weak a ≠ 0) := by
    by_cases h : s.strong a ≠ 1 ∨ s.weak a ≠ 0 <;> simp [WeakSelf.init, h]
  exact ⟨hiff, fun h2 => hiff.mpr (Or.inl (by omega)),
    fun h1 hw => hiff.mpr (Or.inr (by omega))⟩

/-- Witness for C1: after `Arc::new` plus `Arc::clone` (strong count 2)
`init` panics, and after `Arc::new` plus `Arc::downgrade` (strong count 1,
weak count 1) `init` panics. -/
theorem weakSelf_init_aborts_iff_witness :
    WeakSelf.init (arcClone (arcNew RcState.empty).1 0) WeakSelf.new 0 =
      Except.error
        "Exclusive access to Arc<T> is required while initializing WeakSelf<T>" ∧
    WeakSelf.init ((arcDowngrade (arcNew RcState.empty).1 0).1) WeakSelf.new 0 =
      Except.error
        "Exclusive access to Arc<T> is required while initializing WeakSelf<T>" := by
  refine ⟨(weakSelf_init_aborts_iff _ WeakSelf.new 0).2.1 (by decide),
    (weakSelf_init_aborts_iff _ WeakSelf.new 0).2.2 (by decide) (by decide)⟩

/-- C2 (counterexample): a concrete trace on which the stored reference is
replaced.  `init` with allocation 0 stores `some 0`; a later `init` with
the fresh unique allocation 1 passes the count check and overwrites the
cell with `some 1`, so the slot's content is not write-once. -/
theorem weakSelf_reinit_counterexample :
    (runOps { rc := RcState.empty, slot := WeakSelf.new }
        [SlotOp.newArc, SlotOp.initSlot 0]).slot = { cell := some 0 } ∧
    (runOps { rc := RcState.empty, slot := WeakSelf.new }
        [SlotOp.newArc, SlotOp.initSlot 0, SlotOp.newArc, SlotOp.initSlot 1]).slot
      = { cell := some 1 } ∧
    ({ cell := some 1 } : WeakSelf) ≠ { cell := some 0 } := by
  refine ⟨by decide, by decide, by decide⟩

/-- C2 (amended): over every sequence of operations, once the slot holds a
reference it never goes back to `None`, and no operation other than
`init` ever modifies the cell.  (A second successful `init` may replace
the stored reference, as the counterexample shows.) -/
theorem weakSelf_slot_never_reset (s : SysState) (ops : List SlotOp) :
    (s.slot.cell.isSome = true → ((runOps s ops).slot.cell).isSome = true) ∧
    ((∀ a, SlotOp.initSlot a ∉ ops) → (runOps s ops).slot = s.slot) := by
  induction ops generalizing s with
  | nil => exact ⟨fun h => h, fun _ => rfl⟩
  | cons op rest ih =>
      constructor
      · intro h
        have h1 := stepOp_preserves_some s op h
        have h2 := (ih (stepOp s op)).1 h1
        simpa [runOps] using h2
      · intro hno
        have hop : ∀ a, op ≠ SlotOp.initSlot a := by
          intro a he
          exact hno a (by simp [he])
        have hstep : (stepOp s op).slot = s.slot := by
          cases op <;> first | rfl | exact absurd rfl (hop _)
        have h2 := (ih (stepOp s op)).2
          (fun a hmem => hno a (List.mem_cons_of_mem _ hmem))
        simp only [runOps, List.foldl_cons] at h2 ⊢
        rw [h2, hstep]

/-- Witness for C2 (amended): with the cell holding `some 0`, a trace of
reads, drops and a failing `init` leaves it holding a reference. -/
theorem weakSelf_slot_never_reset_witness :
    ((runOps { rc := RcState.empty, slot := { cell := some 0 } }
        [SlotOp.getSlot, SlotOp.dropArc 0, SlotOp.initSlot 0,
          SlotOp.tryGetSlot]).slot.cell).isSome = true := by
  exact (weakSelf_slot_never_reset
    { rc := RcState.empty, slot := { cell := some 0 } }
    [SlotOp.getSlot, SlotOp.dropArc 0, SlotOp.initSlot 0,
      SlotOp.tryGetSlot]).1 rfl

/-- C3: for the documented pattern (`Arc::new`, then `init` on the fresh
handle), `init` succeeds and stores a weak reference with the handle's
own allocation id; `get` returns that reference; upgrading it yields an
owning handle to the same allocation whenever the strong count is at
least 1, and yields `none` once the strong count is 0 (all owning handles
dropped). -/
theorem weakSelf_upgrade_roundtrip (s0 : RcState) :
    WeakSelf.init (arcNew s0).1 WeakSelf.new (arcNew s0).2 =
      Except.ok ((arcDowngrade (arcNew s0).1 (arcNew s0).2).1,
        { cell := some (arcNew s0).2 }) ∧
    WeakSelf.get { cell := some (arcNew s0).2 } = Except.ok (arcNew s0).2 ∧
    (∀ s : RcState, 1 ≤ s.strong (arcNew s0).2 →
      (weakUpgrade s (arcNew s0).2).2 = some (arcNew s0).2) ∧
    (∀ s : RcState, s.strong (arcNew s0).2 = 0 →
      (weakUpgrade s (arcNew s0).2).2 = none) := by
  refine ⟨?_, rfl, ?_, ?_⟩
  · have h1 : (arcNew s0).1.strong (arcNew s0).2 = 1 := by
      simp [arcNew, updCount]
    have h2 : (arcNew s0).1.weak (arcNew s0).2 = 0 := by
      simp [arcNew, updCount]
    simp [WeakSelf.init, h1, h2, arcDowngrade]
  · intro s hs
    have hne : s.strong (arcNew s0).2 ≠ 0 := by omega
    simp [weakUpgrade, hne]
  · intro s hs
    simp [weakUpgrade, hs]

/-- Witness for C3: from the empty state, upgrading the stored weak
reference succeeds (same allocation 0) while the strong count is 1, and
fails after the owning handle is dropped. -/
theorem weakSelf_upgrade_roundtrip_witness :
    (weakUpgrade ((arcDowngrade (arcNew RcState.empty).1 0).1) 0).2 = some 0 ∧
    (weakUpgrade (arcDrop ((arcDowngrade (arcNew RcState.empty).1 0).1) 0) 0).2
      = none := by
  exact ⟨(weakSelf_upgrade_roundtrip RcState.empty).2.2.1 _ (by decide),
    (weakSelf_upgrade_roundtrip RcState.empty).2.2.2 _ (by decide)⟩

/-- C4: a freshly constructed slot answers `none` to `try_get` (a pure
total read) and `get` on it panics with the message from the source. -/
theorem weakSelf_fresh_accessors :
    WeakSelf.try_get WeakSelf.new = none ∧
    WeakSelf.get WeakSelf.new =
      Except.error "expected WeakSelf to be initialized" :=
  ⟨rfl, rfl⟩

/-- C5: when the handle has strong count 1 and weak count 0, `init`
succeeds, its stored reference is exactly `Arc::downgrade` of the handle
(the handle's allocation id), and afterwards `get` returns a clone of
that stored reference while `try_get` returns it as present. -/
theorem weakSelf_init_stores_downgrade (s : RcState) (slot : WeakSelf) (a : Nat)
    (h1 : s.strong a = 1) (h2 : s.weak a = 0) :
    WeakSelf.init s slot a =
      Except.ok ((arcDowngrade s a).1, { cell := some (arcDowngrade s a).2 }) ∧
    WeakSelf.get { cell := some (arcDowngrade s a).2 } =
      Except.ok (weakCloneId (arcDowngrade s a).2) ∧
    WeakSelf.try_get { cell := some (arcDowngrade s a).2 } =
      some (arcDowngrade s a).2 := by
  refine ⟨?_, rfl, rfl⟩
  simp [WeakSelf.init, h1, h2]

/-- Witness for C5: `init` on the fresh allocation 0 stores `some 0` and
the accessors return it. -/
theorem weakSelf_init_stores_downgrade_witness :
    WeakSelf.init (arcNew RcState.empty).1 WeakSelf.new 0 =
      Except.ok ((arcDowngrade (arcNew RcState.empty).1 0).1,
        { cell := some 0 }) := by
  exact (weakSelf_init_stores_downgrade (arcNew RcState.empty).1
    WeakSelf.new 0 (by decide) (by decide)).1

/-- C6: on an initialized slot, `try_get` and `get` steps leave the whole
system state unchanged, every call returns the stored reference (the same
allocation on every call), and any sequence made only of `try_get`/`get`
operations leaves the state exactly as it was. -/
theorem weakSelf_accessors_pure (s : SysState) (w : Nat)
    (h : s.slot.cell = some w) :
    stepOp s SlotOp.tryGetSlot = s ∧
    stepOp s SlotOp.getSlot = s ∧
    WeakSelf.try_get s.slot = some w ∧
    WeakSelf.get s.slot = Except.ok w ∧
    (∀ ops : List SlotOp,
      (∀ op ∈ ops, op = SlotOp.tryGetSlot ∨ op = SlotOp.getSlot) →
        runOps s ops = s) := by
  refine ⟨rfl, rfl, ?_, ?_, ?_⟩
  · simp [WeakSelf.try_get, h]
  · simp [WeakSelf.get, WeakSelf.try_get, weakCloneId, h]
  · intro ops hops
    induction ops with
    | nil => rfl
    | cons op rest ih =>
        have h1 := hops op (by simp)
        have hstep : stepOp s op = s := by
          rcases h1 with h1 | h1 <;> subst h1 <;> rfl
        simp only [runOps, List.foldl_cons] at ih ⊢
        rw [hstep]
        exact ih (fun o ho => hops o (List.mem_cons_of_mem _ ho))

/-- Witness for C6: on a concrete initialized slot the accessors return
the stored reference. -/
theorem weakSelf_accessors_pure_witness :
    WeakSelf.try_get { cell := some 0 } = some 0 ∧
    WeakSelf.get { cell := some 0 } = Except.ok 0 := by
  have h := weakSelf_accessors_pure
    { rc := RcState.empty, slot := { cell := some 0 } } 0 rfl
  exact ⟨h.2.2.1, h.2.2.2.1⟩

/-- C7: `init` on an already-initialized slot (cell holding `w0`) with a
different handle `a` whose strong count is 1 and weak count is 0 succeeds
silently and replaces the stored reference with the one derived from `a`;
the count check does not detect the re-initialization itself. -/
theorem weakSelf_reinit_overwrites (s : RcState) (w0 a : Nat) (hne : a ≠ w0)
    (h1 : s.strong a = 1) (h2 : s.weak a = 0) :
    WeakSelf.init s { cell := some w0 } a =
      Except.ok ((arcDowngrade s a).1, { cell := some a }) ∧
    ({ cell := some a } : WeakSelf) ≠ { cell := some w0 } := by
  constructor
  · simp [WeakSelf.init, h1, h2, arcDowngrade]
  · simp [hne]

/-- Witness for C7: the slot stores `some 0`; `init` with the fresh unique
allocation 1 succeeds and the new cell content differs from the old. -/
theorem weakSelf_reinit_overwrites_witness :
    WeakSelf.init ((arcNew ((arcDowngrade (arcNew RcState.empty).1 0).1)).1)
        { cell := some 0 } 1 =
      Except.ok ((arcDowngrade
          ((arcNew ((arcDowngrade (arcNew RcState.empty).1 0).1)).1) 1).1,
        { cell := some 1 }) ∧
    ({ cell := some 1 } : WeakSelf) ≠ { cell := some 0 } := by
  exact weakSelf_reinit_overwrites _ 0 1 (by decide) (by decide) (by decide)

/-- C8: the debug formatter renders the "empty" text when the cell is
uninitialized and otherwise returns exactly the debug rendering of the
stored non-owning reference. -/
theorem weakSelf_debugFmt_spec (d : Nat → String) (slot : WeakSelf) :
    (slot.cell = none → WeakSelf.debugFmt d slot = "Empty WeakSelf<T>") ∧
    (∀ w, slot.cell = some w → WeakSelf.debugFmt d slot = d w) := by
  obtain ⟨c⟩ := slot
  cases c <;> simp [WeakSelf.debugFmt, WeakSelf.try_get]

/-- Witness for C8: a fresh slot renders the empty text; an initialized
slot renders via the given `Weak` debug function. -/
theorem weakSelf_debugFmt_spec_witness :
    WeakSelf.debugFmt (fun _ => "(Weak)") WeakSelf.new = "Empty WeakSelf<T>" ∧
    WeakSelf.debugFmt (fun _ => "(Weak)") { cell := some 5 } = "(Weak)" :=
  ⟨(weakSelf_debugFmt_spec (fun _ => "(Weak)") WeakSelf.new).1 rfl,
    (weakSelf_debugFmt_spec (fun _ => "(Weak)") { cell := some 5 }).2 5 rfl⟩

/-- C9: default construction is `WeakSelf::new`, and `new` is the empty
slot (`cell = None`); both are pure values, so they take no input, have
no side effects and cannot fail. -/
theorem weakSelf_default_eq_new :
    WeakSelf.defaultSlot = WeakSelf.new ∧
    WeakSelf.new = { cell := none } :=
  ⟨rfl, rfl⟩

/-- C10: per the bounds of the two `unsafe impl`s, the slot is `Sync`
exactly when the target type is both `Sync` and `Send`, and likewise for
`Send`; automatic derivation (the `UnsafeCell` field is never `Sync`)
would not produce this, so the manual declarations are what grant it. -/
theorem weakSelf_markers_iff (a b : Bool) :
    (weakSelfIsSync a b = true ↔ a = true ∧ b = true) ∧
    (weakSelfIsSend a b = true ↔ a = true ∧ b = true) ∧
    weakSelfIsSync true true ≠ autoDerivedSync true true := by
  refine ⟨?_, ?_, by decide⟩ <;>
    cases a <;> cases b <;> simp [weakSelfIsSync, weakSelfIsSend]

/-- Witness for C10: with a `Sync + Send` target the slot has both
markers. -/
theorem weakSelf_markers_iff_witness :
    weakSelfIsSync true true = true ∧ weakSelfIsSend true true = true :=
  ⟨(weakSelf_markers_iff true true).1.mpr ⟨rfl, rfl⟩,
    (weakSelf_markers_iff true true).2.1.mpr ⟨rfl, rfl⟩⟩
